import Mathlib

/-!
Shallow embedding of the ChatBot repository (chatbot.py, chat_db.py,
task5_rag_pipeline.py) and proofs about the claims of its specification.

External collaborators (the Groq generation client, the Chroma retrieval
store, the ASR and translation HTTP services, and Python's `json` codec)
are modelled as oracles / abstract values; every piece of control flow in
the repository's own functions is translated directly from the source.
-/

namespace ChatBot

/-- Python values decoded by `json.loads`, as used for LLM responses and
message metadata. Numbers are modelled as integers (no claim depends on
floating point). An object is a finite list of key/value fields; Python
dicts produced by `json.loads` have distinct keys. -/
inductive Json where
  | null
  | bool (b : Bool)
  | num (n : Int)
  | str (s : String)
  | arr (xs : List Json)
  | obj (fields : List (String × Json))

/-- Python's `==` between a decoded JSON value and a string: true exactly
when the value is that string (a Python `str` equal to it); comparing a
string with a dict, list, number, boolean or `None` is `False`. -/
def Json.pyEqStr (j : Json) (s : String) : Bool :=
  match j with
  | .str t => t == s
  | _ => false

/-- Python's membership test `key in j` for a decoded JSON value and a
non-empty string `key` (both call sites use `"status"` / `"content"`).
On a dict it tests keys, on a list it tests elements, on a string it is a
substring test; on `int` / `bool` / `None` (and floats) it raises
`TypeError`, modelled as `Except.error`. -/
def Json.hasMember (j : Json) (key : String) : Except String Bool :=
  match j with
  | .obj fields => .ok (fields.any (fun kv => kv.1 == key))
  | .arr xs => .ok (xs.any (fun x => x.pyEqStr key))
  | .str s => .ok (decide ((s.splitOn key).length > 1))
  | _ => .error "TypeError: argument is not iterable"

/-- Python's subscript `j[key]` with a string key: key lookup on a dict
(`KeyError` when absent), `TypeError` on every other decoded value. -/
def Json.index (j : Json) (key : String) : Except String Json :=
  match j with
  | .obj fields =>
    match fields.find? (fun kv => kv.1 == key) with
    | some kv => .ok kv.2
    | none => .error "KeyError"
  | _ => .error "TypeError: not subscriptable"

/-- One entry of the sliding-window history handed to the LLM:
the `{"role": ..., "content": ...}` dicts built by `get_recent_messages`. -/
structure Msg where
  role : String
  content : Json

/-- Observable outcome of the phase-1 generation call
(`self._get_client().chat.completions.create(...)` followed by
`json.loads` on the stripped response text). The external service either
raises some non-`JSONDecodeError` exception (`raises`), or returns a raw
string; `returns none` models a raw string on which `json.loads` raises
`JSONDecodeError`, and `returns (some j)` a raw string decoding to `j`. -/
inductive LLMOutcome where
  | raises (msg : String)
  | returns (parsed : Option Json)

/-- The literal `{"status": "failure", "content": "Need more context"}`
fallback value of `try_answer_from_history`. -/
def failureResult : Json :=
  .obj [("status", .str "failure"), ("content", .str "Need more context")]

/-- Result of `try_answer_from_history`: the returned value (or the
`RuntimeError` it raises, as `Except.error`), together with the number of
generation calls it issued. -/
structure Phase1Out where
  result : Except String Json
  llmCalls : Nat

/-- `VoiceChatbot.try_answer_from_history` (chatbot.py lines 118-166).
Empty history returns the failure value before any generation call.
Otherwise one call is made; a `JSONDecodeError` from parsing, or a missing
`"status"` / `"content"` member, yields the failure value; any other
exception inside the `try` block — the call raising, or the membership
test raising `TypeError` on a non-container — is re-raised as
`RuntimeError("LLM error: ...")`. -/
def tryAnswerFromHistory (llm : LLMOutcome) (history : List Msg) : Phase1Out :=
  if history.isEmpty then
    ⟨.ok failureResult, 0⟩
  else
    match llm with
    | .raises e => ⟨.error ("LLM error: " ++ e), 1⟩
    | .returns none => ⟨.ok failureResult, 1⟩
    | .returns (some j) =>
      match j.hasMember "status" with
      | .error e => ⟨.error ("LLM error: " ++ e), 1⟩
      | .ok hasStatus =>
        if !hasStatus then ⟨.ok failureResult, 1⟩
        else
          match j.hasMember "content" with
          | .error e => ⟨.error ("LLM error: " ++ e), 1⟩
          | .ok hasContent =>
            if !hasContent then ⟨.ok failureResult, 1⟩
            else ⟨.ok j, 1⟩

/-- `SLIDING_WINDOW_SIZE` from utils/config.py. -/
def SLIDING_WINDOW_SIZE : Nat := 10

/-- `TOP_K_RETRIEVAL` from utils/config.py. -/
def TOP_K_RETRIEVAL : Nat := 2

/-- A row of the `messages` table (chat_db.py, class ChatMessage).
`content` is kept as a decoded Python value (`Json.str` for ordinary
strings). `metadata_json` holds the `json.dumps` output kept structured:
`json.dumps` / `json.loads` of Python's standard library are mutually
inverse on decoded values, so the serialized string column is modelled by
the value itself, `none` standing for SQL NULL. `created_at` models a
`datetime.now(timezone.utc)` instant as an abstract tick count. -/
structure MessageRow where
  id : Nat
  session_id : String
  role : String
  content : Json
  metadata_json : Option Json
  created_at : Nat

/-- A row of the `sessions` table (chat_db.py, class ChatSession). -/
structure SessionRow where
  id : String
  created_at : Nat
  updated_at : Nat

/-- The chat database: the two tables, the auto-increment counter of
`messages.id`, and a clock producing strictly increasing `datetime.now`
ticks (real timestamps have microsecond resolution, so consecutive inserts
get strictly increasing values). -/
structure DBState where
  sessions : List SessionRow
  messages : List MessageRow
  nextId : Nat
  clock : Nat

/-- The `ORDER BY created_at` comparison of the two read queries. -/
def byTime (a b : MessageRow) : Prop := a.created_at ≤ b.created_at

instance : DecidableRel byTime := fun a b => Nat.decLe a.created_at b.created_at

instance : IsTotal MessageRow byTime := ⟨fun a b => Nat.le_total a.created_at b.created_at⟩

instance : IsTrans MessageRow byTime := ⟨fun _ _ _ => Nat.le_trans⟩

/-- The `filter_by(session_id=...)` restriction shared by both queries. -/
def sessionMessages (db : DBState) (session_id : String) : List MessageRow :=
  db.messages.filter (fun m => m.session_id == session_id)

/-- The metadata column value computed inside `add_message`:
`json.dumps(metadata, ensure_ascii=False) if metadata else None`
(chat_db.py lines 156-158). Python truthiness makes both `None` and the
empty dict store NULL. -/
def serializeMetadata (metadata : Option (List (String × Json))) : Option Json :=
  match metadata with
  | some m => if m.isEmpty then none else some (.obj m)
  | none => none

/-- The write performed by `ChatDatabase.add_message` once the INSERT is
accepted by the store (chat_db.py lines 150-169): build the row with the
auto-increment id and the current time, append it, and refresh the
owning session's `updated_at` behind the `if sess:` guard. `id` is the
primary key of `sessions`, so updating every matching row is the same as
updating the `.first()` one; when no row matches, the map is the
identity (but see `add_message`: the INSERT itself is then rejected). -/
def insertMessage (db : DBState) (session_id role : String) (content : Json)
    (metadata : Option (List (String × Json))) : DBState × Nat :=
  let metadata_json : Option Json := serializeMetadata metadata
  let msg : MessageRow :=
    ⟨db.nextId, session_id, role, content, metadata_json, db.clock⟩
  let sessions := db.sessions.map
    (fun s => if s.id == session_id then { s with updated_at := db.clock } else s)
  (⟨sessions, db.messages ++ [msg], db.nextId + 1, db.clock + 1⟩, db.nextId)

/-- `ChatDatabase.add_message` (chat_db.py lines 131-171) as observed
through the MySQL store: `messages.session_id` carries a NOT NULL
foreign key to `sessions.id` (lines 76-79), and the pending INSERT is
flushed no later than `commit()` (SQLAlchemy autoflushes it already at
the session lookup of line 163). When no session row matches, the flush
violates the constraint and the call raises `IntegrityError`, persisting
nothing; otherwise the insert and the timestamp touch succeed and the
new state and message id are returned. -/
def add_message (db : DBState) (session_id role : String) (content : Json)
    (metadata : Option (List (String × Json))) : Except String (DBState × Nat) :=
  if db.sessions.any (fun s => s.id == session_id) then
    .ok (insertMessage db session_id role content metadata)
  else
    .error "IntegrityError: foreign key constraint fails"

/-- The rows seen by `ChatDatabase.get_recent_messages` (chat_db.py lines
175-196): `filter_by(session_id)`, `ORDER BY created_at DESC`,
`LIMIT limit`, then the Python-side `msgs.reverse()`. The descending SQL
order is modelled as the reverse of a stable ascending sort. -/
def recentRows (db : DBState) (session_id : String) (limit : Nat) : List MessageRow :=
  (((List.insertionSort byTime (sessionMessages db session_id)).reverse).take limit).reverse

/-- `ChatDatabase.get_recent_messages`: the sliding window, projected to
the `{"role": ..., "content": ...}` dicts the chatbot consumes. -/
def get_recent_messages (db : DBState) (session_id : String) (limit : Nat) : List Msg :=
  (recentRows db session_id limit).map (fun m => ⟨m.role, m.content⟩)

/-- One entry of the `get_session_history` result: role, content,
`json.loads` of the metadata column (`None` when NULL), and the creation
instant (returned as an ISO string in Python; the tick stands for it). -/
structure HistoryEntry where
  id : Nat
  role : String
  content : Json
  metadata : Option Json
  created_at : Nat

/-- `ChatDatabase.get_session_history` (chat_db.py lines 198-226):
`filter_by(session_id)`, `ORDER BY created_at ASC`, full projection. -/
def get_session_history (db : DBState) (session_id : String) : List HistoryEntry :=
  (List.insertionSort byTime (sessionMessages db session_id)).map
    (fun m => ⟨m.id, m.role, m.content, m.metadata_json, m.created_at⟩)

/-- A retrieved chunk as returned by `step3_retrieve` /
`query_vector_db`: a dict with `text`, `metadata` and `distance` (the
distance, a float, is abstracted to an opaque tick since no claim reads
it). -/
structure Chunk where
  text : String
  metadata : Json
  distance : Int

/-- Outcomes of the external collaborators consulted by one engine
traversal: the phase-1 generation call, the vector-store query
(`step3_retrieve`), and the phase-2 generation call (which either raises
or returns the stripped answer text). -/
structure EngineOracles where
  phase1 : LLMOutcome
  retrieved : List Chunk
  phase2 : Except String String

/-- `VoiceChatbot.answer_with_retrieval` (chatbot.py lines 170-225):
query the vector store, build the prompt, issue the second generation
call with no exception handling — a raise propagates — and return the
answer together with the chunk list. Prompt construction only turns the
question, history and chunks into strings for the oracle, so it does not
appear in the model. -/
def answer_with_retrieval (o : EngineOracles) (question : String)
    (history : List Msg) : Except String (String × List Chunk) :=
  match o.phase2 with
  | .error e => .error e
  | .ok answer => .ok (answer, o.retrieved)

/-- The `len(chunks) if chunks else 0` metadata value stored with the
assistant message (`None` and the empty list both give 0). -/
def chunksUsed (chunks : Option (List Chunk)) : Nat :=
  match chunks with
  | some c => if c.isEmpty then 0 else c.length
  | none => 0

/-- The `{"answer": ..., "source": ..., "retrieved_chunks": ...}` value
returned by `run_text` (the answer is `result["content"]` on the history
path, hence an arbitrary decoded value). -/
structure RunTextResult where
  answer : Json
  source : String
  retrieved_chunks : Option (List Chunk)

/-- `VoiceChatbot.run_text` (chatbot.py lines 302-361): fetch the sliding
window, try phase 1, on `result["status"] == "success"` answer from
history, otherwise fall back to retrieval; persist the user message with
`{"input_type": "text"}` and the assistant message with
`{"source": ..., "chunks_used": ...}`; return the structured result.
Exceptions (`Except.error`) from phase 1, from the subscripts on a
non-dict result, or from phase 2 propagate uncaught. -/
def run_text (db : DBState) (o : EngineOracles) (message : String)
    (session_id : String) : Except String (DBState × RunTextResult) :=
  let history := get_recent_messages db session_id SLIDING_WINDOW_SIZE
  match (tryAnswerFromHistory o.phase1 history).result with
  | .error e => .error e
  | .ok result =>
    match result.index "status" with
    | .error e => .error e
    | .ok st =>
      match
        (if st.pyEqStr "success" then
          match result.index "content" with
          | .error e => .error e
          | .ok answer => .ok (answer, "history", (none : Option (List Chunk)))
        else
          match answer_with_retrieval o message history with
          | .error e => .error e
          | .ok (ans, chunks) => .ok (Json.str ans, "vectordb", some chunks)
          : Except String (Json × String × Option (List Chunk)))
      with
      | .error e => .error e
      | .ok (answer, source, chunks) =>
        match add_message db session_id "user" (.str message)
            (some [("input_type", .str "text")]) with
        | .error e => .error e
        | .ok p1 =>
          match add_message p1.1 session_id "assistant" answer
              (some [("source", .str source),
                ("chunks_used", .num (chunksUsed chunks))]) with
          | .error e => .error e
          | .ok p2 => .ok (p2.1, ⟨answer, source, chunks⟩)

/-- Python's `str.startswith`, executed over the character lists so that
proofs can evaluate it (Lean's byte-level `String.startsWith` computes
the same test). -/
def pyStartsWith (s p : String) : Bool := p.data.isPrefixOf s.data

/-- `step2_translate` (task5_rag_pipeline.py lines 94-114), with the
Sarvam `translate_to_english` service as an oracle. Returns the resulting
text together with whether the translation service was called. -/
def step2_translate (translate : String → String) (text : String)
    (source_language : String) : String × Bool :=
  if pyStartsWith source_language "en" then (text, false)
  else (translate text, true)

/-- ASCII lowercasing of one character (BCP-47 tags are ASCII). -/
def asciiLower (c : Char) : Char :=
  if 65 ≤ c.toNat && c.toNat ≤ 90 then Char.ofNat (c.toNat + 32) else c

/-- The primary language subtag of a BCP-47 tag: the part before the
first `-`, lowercased (BCP-47 tags are compared case-insensitively). -/
def primarySubtag (tag : String) : String :=
  ⟨(tag.data.takeWhile (fun c => c != '-')).map asciiLower⟩

/-- Spec-side predicate, following the specification's words rather than
the code: a BCP-47 tag denotes English when its primary language subtag
is `en`. Used to compare the spec's claim about `step2_translate` with
the code's `startswith("en")` test. -/
def denotesEnglish (tag : String) : Prop := primarySubtag tag = "en"

instance (tag : String) : Decidable (denotesEnglish tag) :=
  inferInstanceAs (Decidable (_ = _))

/-- Outcomes of the collaborators consulted by `run`: the ASR call
(`step1_transcribe`, which either raises or returns the transcript), the
translation service, and the engine collaborators. -/
structure RunOracles where
  transcribe : Except String String
  translate : String → String
  engine : EngineOracles

/-- The dict returned by `run`. -/
structure RunResult where
  transcription : String
  translation : String
  answer : Json
  source : String
  retrieved_chunks : Option (List Chunk)

/-- `VoiceChatbot.run` (chatbot.py lines 229-300): transcribe, translate,
then the same engine traversal as `run_text`, persisting the user message
with `{"transcription": ..., "source_language": ...}`. -/
def run (db : DBState) (o : RunOracles) (session_id : String)
    (source_language : String) : Except String (DBState × RunResult) :=
  match o.transcribe with
  | .error e => .error e
  | .ok transcription =>
    let translation := (step2_translate o.translate transcription source_language).1
    let history := get_recent_messages db session_id SLIDING_WINDOW_SIZE
    match (tryAnswerFromHistory o.engine.phase1 history).result with
    | .error e => .error e
    | .ok result =>
      match result.index "status" with
      | .error e => .error e
      | .ok st =>
        match
          (if st.pyEqStr "success" then
            match result.index "content" with
            | .error e => .error e
            | .ok answer => .ok (answer, "history", (none : Option (List Chunk)))
          else
            match answer_with_retrieval o.engine translation history with
            | .error e => .error e
            | .ok (ans, chunks) => .ok (Json.str ans, "vectordb", some chunks)
            : Except String (Json × String × Option (List Chunk)))
        with
        | .error e => .error e
        | .ok (answer, source, chunks) =>
          match add_message db session_id "user" (.str translation)
              (some [("transcription", .str transcription),
                ("source_language", .str source_language)]) with
          | .error e => .error e
          | .ok p1 =>
            match add_message p1.1 session_id "assistant" answer
                (some [("source", .str source),
                  ("chunks_used", .num (chunksUsed chunks))]) with
            | .error e => .error e
            | .ok p2 => .ok (p2.1, ⟨transcription, translation, answer, source, chunks⟩)

/-- The new row written by `add_message`, as a full-history entry. -/
def newEntry (db : DBState) (role : String) (content : Json)
    (md : Option (List (String × Json))) : HistoryEntry :=
  ⟨db.nextId, role, content, serializeMetadata md, db.clock⟩

/-- The state produced by the user/assistant append pair that ends every
successful traversal of `run` / `run_text` (their step "Persist
messages"), spelled out for the statements below. -/
def persistedState (db : DBState) (sid : String) (userContent : Json)
    (userMd : List (String × Json)) (answer : Json) (source : String)
    (chunks : Option (List Chunk)) : DBState :=
  (insertMessage (insertMessage db sid "user" userContent (some userMd)).1
    sid "assistant" answer
    (some [("source", .str source), ("chunks_used", .num (chunksUsed chunks))])).1

/-! Helper lemmas shared by the claim theorems. -/

/-- `len(chunks) if chunks else 0` is the list length whenever a chunk
list is present (the empty list maps to `0 = length`). -/
theorem chunksUsed_some (c : List Chunk) : chunksUsed (some c) = c.length := by
  unfold chunksUsed
  split <;> simp_all [List.isEmpty_iff]

/-- The sliding-window rows are a suffix of the session's rows in
ascending timestamp order. -/
theorem recentRows_suffix (db : DBState) (sid : String) (N : Nat) :
    recentRows db sid N <:+ List.insertionSort byTime (sessionMessages db sid) := by
  unfold recentRows
  refine List.reverse_prefix.mp ?_
  rw [List.reverse_reverse]
  exact List.take_prefix N (List.insertionSort byTime (sessionMessages db sid)).reverse

/-- Length of the sliding window. -/
theorem recentRows_length (db : DBState) (sid : String) (N : Nat) :
    (recentRows db sid N).length = min N (sessionMessages db sid).length := by
  unfold recentRows
  rw [List.length_reverse, List.length_take, List.length_reverse,
    (List.perm_insertionSort byTime (sessionMessages db sid)).length_eq]

/-- A successful dict subscript implies a successful membership test. -/
theorem hasMember_of_index_ok {fields : List (String × Json)} {key : String}
    {v : Json} (h : Json.index (.obj fields) key = .ok v) :
    Json.hasMember (.obj fields) key = .ok true := by
  simp only [Json.index] at h
  simp only [Json.hasMember, Except.ok.injEq]
  cases hf : List.find? (fun kv => kv.1 == key) fields with
  | none => rw [hf] at h; exact Except.noConfusion h
  | some kv =>
    have hmem := List.mem_of_find?_eq_some hf
    have hp := List.find?_some hf
    exact List.any_eq_true.mpr ⟨kv, hmem, hp⟩

/-- Python `==` between a decoded value and a string literal holds exactly
for that string. -/
theorem pyEqStr_iff (v : Json) (s : String) : v.pyEqStr s = true ↔ v = .str s := by
  cases v <;> simp [Json.pyEqStr]

/-- The entry of the accepted insert is present in the session's full
history. -/
theorem insertMessage_history_mem (db : DBState) (sid role : String)
    (content : Json) (md : Option (List (String × Json))) :
    newEntry db role content md
      ∈ get_session_history (insertMessage db sid role content md).1 sid := by
  unfold get_session_history
  refine List.mem_map.mpr
    ⟨⟨db.nextId, sid, role, content, serializeMetadata md, db.clock⟩, ?_, rfl⟩
  apply (List.perm_insertionSort byTime _).mem_iff.mpr
  unfold insertMessage sessionMessages
  refine List.mem_filter.mpr ⟨?_, by simp⟩
  simp

/-- Any full-history entry carrying the fresh auto-increment id is the
entry of the accepted insert, provided no prior row already used that
id. -/
theorem insertMessage_history_id_unique (db : DBState) (sid role : String)
    (content : Json) (md : Option (List (String × Json)))
    (hfresh : ∀ r ∈ db.messages, r.id ≠ db.nextId) :
    ∀ e ∈ get_session_history (insertMessage db sid role content md).1 sid,
      e.id = db.nextId → e = newEntry db role content md := by
  intro e he hid
  unfold get_session_history at he
  obtain ⟨m, hm, hme⟩ := List.mem_map.mp he
  have hm' := (List.perm_insertionSort byTime _).mem_iff.mp hm
  unfold insertMessage sessionMessages at hm'
  have hm'' := (List.mem_filter.mp hm').1
  simp only at hm''
  rcases List.mem_append.mp hm'' with hold | hnew
  · exfalso
    apply hfresh m hold
    rw [← hme] at hid
    exact hid
  · have : m = ⟨db.nextId, sid, role, content, serializeMetadata md, db.clock⟩ := by
      simpa using hnew
    rw [← hme, this]
    rfl

/-- A non-empty history has `isEmpty = false`. -/
theorem isEmpty_false_of_ne_nil {history : List Msg} (h : history ≠ []) :
    history.isEmpty = false := by
  cases history with
  | nil => exact absurd rfl h
  | cons a l => rfl

/-- With a non-empty history, a phase-1 response decoding to a dict that
contains both required members is returned unchanged. -/
theorem tryAnswer_obj_ok (fields : List (String × Json)) (history : List Msg)
    (hne : history ≠ [])
    (hs : Json.hasMember (.obj fields) "status" = .ok true)
    (hc : Json.hasMember (.obj fields) "content" = .ok true) :
    tryAnswerFromHistory (.returns (some (.obj fields))) history
      = ⟨.ok (.obj fields), 1⟩ := by
  simp [tryAnswerFromHistory, isEmpty_false_of_ne_nil hne, hs, hc]

/-- The timestamp touch performed by an insert never changes which
session ids are present. -/
theorem sessions_any_touch (l : List SessionRow) (sid' sid : String) (t : Nat) :
    (l.map (fun s => if s.id == sid' then { s with updated_at := t } else s)).any
      (fun s => s.id == sid) = l.any (fun s => s.id == sid) := by
  induction l with
  | nil => rfl
  | cons a l ih =>
    simp only [List.map_cons, List.any_cons, ih]
    cases hc : (a.id == sid') <;> simp [hc]

/-- When a session row with the given id exists, `add_message` accepts
the INSERT and returns the written state. -/
theorem add_message_eq_ok (db : DBState) (sid role : String) (c : Json)
    (md : Option (List (String × Json)))
    (hsess : db.sessions.any (fun s => s.id == sid) = true) :
    add_message db sid role c md = .ok (insertMessage db sid role c md) := by
  unfold add_message
  rw [hsess]
  rfl

/-- Inversion: a successful `add_message` call means the session existed
and the result is the written state. -/
theorem add_message_ok {db : DBState} {p : DBState × Nat} {sid role : String}
    {content : Json} {md : Option (List (String × Json))}
    (h : add_message db sid role content md = .ok p) :
    p = insertMessage db sid role content md
    ∧ db.sessions.any (fun s => s.id == sid) = true := by
  unfold add_message at h
  cases hc : db.sessions.any (fun s => s.id == sid) with
  | false => rw [hc] at h; simp at h
  | true =>
    rw [hc] at h
    simp at h
    exact ⟨h.symm, rfl⟩

/-- A session row with a given id makes the `any` check of `add_message`
succeed. -/
theorem sessions_any_of_exists {db : DBState} {sid : String}
    (h : ∃ s ∈ db.sessions, s.id = sid) :
    db.sessions.any (fun s => s.id == sid) = true := by
  obtain ⟨s, hs, hid⟩ := h
  exact List.any_eq_true.mpr ⟨s, hs, by simp [hid]⟩

/-- Messages of the state after the accepted user/assistant insert pair
of `run` / `run_text`. -/
theorem two_appends_messages (db : DBState) (sid r1 r2 : String) (c1 c2 : Json)
    (md1 md2 : Option (List (String × Json))) :
    (insertMessage (insertMessage db sid r1 c1 md1).1 sid r2 c2 md2).1.messages
      = db.messages
        ++ [⟨db.nextId, sid, r1, c1, serializeMetadata md1, db.clock⟩,
            ⟨db.nextId + 1, sid, r2, c2, serializeMetadata md2, db.clock + 1⟩] := by
  show (db.messages ++ [_]) ++ [_] = _
  rw [List.append_assoc]
  rfl

/-- `run_text` when phase 1 yields a success status: the answer is the
`content` member, the source is `history`, no chunks are attached. -/
theorem run_text_history_path (db : DBState) (o : EngineOracles) (m sid : String)
    (r v c : Json)
    (hok : (tryAnswerFromHistory o.phase1
        (get_recent_messages db sid SLIDING_WINDOW_SIZE)).result = .ok r)
    (hst : r.index "status" = .ok v)
    (hv : v.pyEqStr "success" = true)
    (hc : r.index "content" = .ok c)
    (hsess : db.sessions.any (fun s => s.id == sid) = true) :
    run_text db o m sid
      = .ok (persistedState db sid (.str m) [("input_type", .str "text")]
          c "history" none,
        ⟨c, "history", none⟩) := by
  have h1 := add_message_eq_ok db sid "user" (.str m)
    (some [("input_type", .str "text")]) hsess
  have hsef : (insertMessage db sid "user" (Json.str m)
      (some [("input_type", Json.str "text")])).1.sessions
      = db.sessions.map
        (fun s => if s.id == sid then { s with updated_at := db.clock } else s) := rfl
  have hsess1 : (insertMessage db sid "user" (Json.str m)
      (some [("input_type", Json.str "text")])).1.sessions.any
      (fun s => s.id == sid) = true := by
    rw [hsef, sessions_any_touch]
    exact hsess
  have h2 := add_message_eq_ok
    (insertMessage db sid "user" (Json.str m) (some [("input_type", Json.str "text")])).1
    sid "assistant" c
    (some [("source", Json.str "history"), ("chunks_used", Json.num (chunksUsed none))])
    hsess1
  simp only [run_text, hok, hst]
  rw [if_pos hv]
  simp only [hc, h1, h2]
  rfl

/-- `run_text` when phase 1 yields anything but a success status: the
engine falls back to retrieval. -/
theorem run_text_vectordb_path (db : DBState) (o : EngineOracles) (m sid : String)
    (r v : Json) (ans : String)
    (hok : (tryAnswerFromHistory o.phase1
        (get_recent_messages db sid SLIDING_WINDOW_SIZE)).result = .ok r)
    (hst : r.index "status" = .ok v)
    (hv : v.pyEqStr "success" = false)
    (hans : o.phase2 = .ok ans)
    (hsess : db.sessions.any (fun s => s.id == sid) = true) :
    run_text db o m sid
      = .ok (persistedState db sid (.str m) [("input_type", .str "text")]
          (.str ans) "vectordb" (some o.retrieved),
        ⟨.str ans, "vectordb", some o.retrieved⟩) := by
  have h1 := add_message_eq_ok db sid "user" (.str m)
    (some [("input_type", .str "text")]) hsess
  have hsef : (insertMessage db sid "user" (Json.str m)
      (some [("input_type", Json.str "text")])).1.sessions
      = db.sessions.map
        (fun s => if s.id == sid then { s with updated_at := db.clock } else s) := rfl
  have hsess1 : (insertMessage db sid "user" (Json.str m)
      (some [("input_type", Json.str "text")])).1.sessions.any
      (fun s => s.id == sid) = true := by
    rw [hsef, sessions_any_touch]
    exact hsess
  have h2 := add_message_eq_ok
    (insertMessage db sid "user" (Json.str m) (some [("input_type", Json.str "text")])).1
    sid "assistant" (.str ans)
    (some [("source", Json.str "vectordb"),
      ("chunks_used", Json.num (chunksUsed (some o.retrieved)))])
    hsess1
  have hneg : ¬ (v.pyEqStr "success" = true) := by simp [hv]
  simp only [run_text, hok, hst]
  rw [if_neg hneg]
  simp only [answer_with_retrieval, hans, h1, h2]
  rfl

/-- `run` when phase 1 yields the failure value: the engine falls back to
retrieval after transcription and translation. -/
theorem run_vectordb_path (db : DBState) (o : RunOracles) (sid lang t ans : String)
    (ht : o.transcribe = .ok t)
    (hok : (tryAnswerFromHistory o.engine.phase1
        (get_recent_messages db sid SLIDING_WINDOW_SIZE)).result = .ok failureResult)
    (hans : o.engine.phase2 = .ok ans)
    (hsess : db.sessions.any (fun s => s.id == sid) = true) :
    run db o sid lang
      = .ok (persistedState db sid (.str (step2_translate o.translate t lang).1)
          [("transcription", .str t), ("source_language", .str lang)]
          (.str ans) "vectordb" (some o.engine.retrieved),
        ⟨t, (step2_translate o.translate t lang).1, .str ans, "vectordb",
          some o.engine.retrieved⟩) := by
  have h1 := add_message_eq_ok db sid "user" (.str (step2_translate o.translate t lang).1)
    (some [("transcription", .str t), ("source_language", .str lang)]) hsess
  have hsef : (insertMessage db sid "user" (Json.str (step2_translate o.translate t lang).1)
      (some [("transcription", Json.str t), ("source_language", Json.str lang)])).1.sessions
      = db.sessions.map
        (fun s => if s.id == sid then { s with updated_at := db.clock } else s) := rfl
  have hsess1 : (insertMessage db sid "user" (Json.str (step2_translate o.translate t lang).1)
      (some [("transcription", Json.str t), ("source_language", Json.str lang)])).1.sessions.any
      (fun s => s.id == sid) = true := by
    rw [hsef, sessions_any_touch]
    exact hsess
  have h2 := add_message_eq_ok
    (insertMessage db sid "user" (Json.str (step2_translate o.translate t lang).1)
      (some [("transcription", Json.str t), ("source_language", Json.str lang)])).1
    sid "assistant" (.str ans)
    (some [("source", Json.str "vectordb"),
      ("chunks_used", Json.num (chunksUsed (some o.engine.retrieved)))])
    hsess1
  have hidx : failureResult.index "status" = Except.ok (Json.str "failure") := rfl
  have hneg : ¬ ((Json.str "failure").pyEqStr "success" = true) := by decide
  simp only [run, ht, hok, hidx]
  rw [if_neg hneg]
  simp only [answer_with_retrieval, hans, h1, h2]
  rfl

/-! Claim theorems. -/

/-- C1: with an empty fetched history window the engine never issues a
phase-1 generation call — `try_answer_from_history` returns the failure
value with zero calls — and both `run` and `run_text` proceed on the
retrieval (vectordb) path. -/
theorem claim1_empty_history_goes_to_retrieval (db : DBState) (sid : String)
    (h : get_recent_messages db sid SLIDING_WINDOW_SIZE = [])
    (hsess : ∃ s ∈ db.sessions, s.id = sid) :
    (∀ p : LLMOutcome,
      tryAnswerFromHistory p (get_recent_messages db sid SLIDING_WINDOW_SIZE)
        = ⟨.ok failureResult, 0⟩)
    ∧ (∀ (o : EngineOracles) (m ans : String), o.phase2 = .ok ans →
        ∃ db', run_text db o m sid
          = .ok (db', ⟨.str ans, "vectordb", some o.retrieved⟩))
    ∧ (∀ (o : RunOracles) (lang t ans : String),
        o.transcribe = .ok t → o.engine.phase2 = .ok ans →
        ∃ db', run db o sid lang
          = .ok (db', ⟨t, (step2_translate o.translate t lang).1, .str ans,
              "vectordb", some o.engine.retrieved⟩)) := by
  have hb := sessions_any_of_exists hsess
  refine ⟨?_, ?_, ?_⟩
  · intro p
    rw [h]
    rfl
  · intro o m ans hans
    exact ⟨_, run_text_vectordb_path db o m sid failureResult (.str "failure") ans
      (by rw [h]; rfl) rfl rfl hans hb⟩
  · intro o lang t ans ht hans
    exact ⟨_, run_vectordb_path db o sid lang t ans ht (by rw [h]; rfl) hans hb⟩

/-- Witness for C1: a store holding one session with no messages, text
path and audio path. -/
theorem claim1_witness :
    tryAnswerFromHistory (.raises "x")
        (get_recent_messages ⟨[⟨"s", 0, 0⟩], [], 0, 0⟩ "s" SLIDING_WINDOW_SIZE)
      = ⟨.ok failureResult, 0⟩
    ∧ (∃ db', run_text ⟨[⟨"s", 0, 0⟩], [], 0, 0⟩ ⟨.raises "x", [], .ok "ans"⟩ "hi" "s"
        = .ok (db', ⟨.str "ans", "vectordb", some []⟩))
    ∧ (∃ db', run ⟨[⟨"s", 0, 0⟩], [], 0, 0⟩
          ⟨.ok "q", fun s => s, .raises "x", [], .ok "ans"⟩ "s" "hi-IN"
        = .ok (db', ⟨"q", (step2_translate (fun s => s) "q" "hi-IN").1, .str "ans",
            "vectordb", some []⟩)) := by
  have h := claim1_empty_history_goes_to_retrieval ⟨[⟨"s", 0, 0⟩], [], 0, 0⟩ "s" rfl
    ⟨⟨"s", 0, 0⟩, by simp, rfl⟩
  exact ⟨h.1 (.raises "x"),
    h.2.1 ⟨.raises "x", [], .ok "ans"⟩ "hi" "ans" rfl,
    h.2.2 ⟨.ok "q", fun s => s, .raises "x", [], .ok "ans"⟩ "hi-IN" "q" "ans" rfl rfl⟩

/-- C2 (code bug): the phase-1 raw response `42` is valid JSON and lacks
both required fields, yet `try_answer_from_history` raises a RuntimeError
instead of returning the soft failure value: the membership test
`"status" not in result` raises TypeError on an int, and the generic
`except Exception` handler re-raises it as `RuntimeError`, contradicting
the stated policy that malformed LLM output is never a hard error.
Non-JSON responses and decoded containers missing a member do fall back
as claimed. -/
theorem claim2_scalar_json_response_raises :
    (tryAnswerFromHistory (.returns (some (.num 42))) [⟨"user", .str "hi"⟩]).result
      = .error ("LLM error: " ++ "TypeError: argument is not iterable")
    ∧ (tryAnswerFromHistory (.returns (some (.num 42))) [⟨"user", .str "hi"⟩]).result
      ≠ .ok failureResult
    ∧ (tryAnswerFromHistory (.returns none) [⟨"user", .str "hi"⟩]).result
      = .ok failureResult
    ∧ (tryAnswerFromHistory (.returns (some (.obj [("content", .str "x")])))
        [⟨"user", .str "hi"⟩]).result = .ok failureResult := by
  refine ⟨rfl, ?_, rfl, rfl⟩
  intro hcontra
  exact Except.noConfusion hcontra

/-- C4: every successful traversal of `run` / `run_text` persists exactly
two new messages, in order: the user's question with input-provenance
metadata (transcription and source language for audio, the text input
tag for text), then the assistant's answer with metadata naming the
source path and the chunks-used count. -/
theorem claim4_persists_exactly_two_messages (db : DBState) :
    (∀ (o : EngineOracles) (m sid : String) (db' : DBState) (res : RunTextResult),
      run_text db o m sid = .ok (db', res) →
      (res.source = "history" ∨ res.source = "vectordb")
      ∧ (res.source = "history" → res.retrieved_chunks = none)
      ∧ (res.source = "vectordb" → ∃ cs, res.retrieved_chunks = some cs)
      ∧ db'.messages = db.messages
          ++ [⟨db.nextId, sid, "user", .str m,
                some (.obj [("input_type", .str "text")]), db.clock⟩,
              ⟨db.nextId + 1, sid, "assistant", res.answer,
                some (.obj [("source", .str res.source),
                  ("chunks_used", .num (chunksUsed res.retrieved_chunks))]),
                db.clock + 1⟩])
    ∧ (∀ (o : RunOracles) (sid lang : String) (db' : DBState) (res : RunResult),
      run db o sid lang = .ok (db', res) →
      (res.source = "history" ∨ res.source = "vectordb")
      ∧ (res.source = "history" → res.retrieved_chunks = none)
      ∧ (res.source = "vectordb" → ∃ cs, res.retrieved_chunks = some cs)
      ∧ db'.messages = db.messages
          ++ [⟨db.nextId, sid, "user", .str res.translation,
                some (.obj [("transcription", .str res.transcription),
                  ("source_language", .str lang)]), db.clock⟩,
              ⟨db.nextId + 1, sid, "assistant", res.answer,
                some (.obj [("source", .str res.source),
                  ("chunks_used", .num (chunksUsed res.retrieved_chunks))]),
                db.clock + 1⟩]) := by
  constructor
  · intro o m sid db' res hrun
    simp only [run_text] at hrun
    repeat' (first
      | exact Except.noConfusion hrun
      | split at hrun)
    injection hrun with hpair
    injection hpair with hdb hres
    subst hdb
    subst hres
    rename_i hT x4 p1 h1 x5 p2 h2
    obtain ⟨hp1, hs1⟩ := add_message_ok h1
    subst hp1
    obtain ⟨hp2, hs2⟩ := add_message_ok h2
    subst hp2
    split at hT
    all_goals split at hT
    all_goals
      first
      | exact Except.noConfusion hT
      | (injection hT with hT2
         injection hT2 with ha h3
         injection h3 with hs hcs
         subst ha
         subst hs
         subst hcs
         first
         | exact ⟨Or.inl rfl, fun _ => rfl, fun hcon => by simp at hcon,
             by rw [two_appends_messages]; rfl⟩
         | exact ⟨Or.inr rfl, fun hcon => by simp at hcon, fun _ => ⟨_, rfl⟩,
             by rw [two_appends_messages]; rfl⟩)
  · intro o sid lang db' res hrun
    simp only [run] at hrun
    repeat' (first
      | exact Except.noConfusion hrun
      | split at hrun)
    injection hrun with hpair
    injection hpair with hdb hres
    subst hdb
    subst hres
    rename_i hT x4 p1 h1 x5 p2 h2
    obtain ⟨hp1, hs1⟩ := add_message_ok h1
    subst hp1
    obtain ⟨hp2, hs2⟩ := add_message_ok h2
    subst hp2
    split at hT
    all_goals split at hT
    all_goals
      first
      | exact Except.noConfusion hT
      | (injection hT with hT2
         injection hT2 with ha h3
         injection h3 with hs hcs
         subst ha
         subst hs
         subst hcs
         first
         | exact ⟨Or.inl rfl, fun _ => rfl, fun hcon => by simp at hcon,
             by rw [two_appends_messages]; rfl⟩
         | exact ⟨Or.inr rfl, fun hcon => by simp at hcon, fun _ => ⟨_, rfl⟩,
             by rw [two_appends_messages]; rfl⟩)

/-- Witness for C4: an empty store, text path, retrieval branch. -/
theorem claim4_witness :
    ((RunTextResult.mk (Json.str "ans") "vectordb" (some [])).source = "history"
      ∨ (RunTextResult.mk (Json.str "ans") "vectordb" (some [])).source = "vectordb")
    ∧ ((RunTextResult.mk (Json.str "ans") "vectordb" (some [])).source = "history"
      → (RunTextResult.mk (Json.str "ans") "vectordb" (some [])).retrieved_chunks = none)
    ∧ ((RunTextResult.mk (Json.str "ans") "vectordb" (some [])).source = "vectordb"
      → ∃ cs, (RunTextResult.mk (Json.str "ans") "vectordb" (some [])).retrieved_chunks
          = some cs)
    ∧ (DBState.mk [⟨"s", 0, 1⟩]
        [⟨0, "s", "user", Json.str "hi", some (.obj [("input_type", Json.str "text")]), 0⟩,
         ⟨1, "s", "assistant", Json.str "ans",
           some (.obj [("source", Json.str "vectordb"), ("chunks_used", Json.num 0)]), 1⟩]
        2 2).messages
      = (DBState.mk [⟨"s", 0, 0⟩] [] 0 0).messages
        ++ [⟨0, "s", "user", Json.str "hi",
              some (.obj [("input_type", Json.str "text")]), 0⟩,
            ⟨1, "s", "assistant", Json.str "ans",
              some (.obj [("source", Json.str "vectordb"), ("chunks_used", Json.num 0)]),
              1⟩] :=
  (claim4_persists_exactly_two_messages ⟨[⟨"s", 0, 0⟩], [], 0, 0⟩).1
    ⟨.raises "x", [], .ok "ans"⟩ "hi" "s"
    ⟨[⟨"s", 0, 1⟩],
      [⟨0, "s", "user", Json.str "hi", some (.obj [("input_type", Json.str "text")]), 0⟩,
      ⟨1, "s", "assistant", Json.str "ans",
        some (.obj [("source", Json.str "vectordb"), ("chunks_used", Json.num 0)]), 1⟩],
      2, 2⟩
    ⟨Json.str "ans", "vectordb", some []⟩
    rfl

/-- C9: when the phase-1 response decodes to a dict carrying both
required fields, the engine takes the history path exactly when the
status member is the string `success`; any other status value routes to
retrieval without raising. -/
theorem claim9_success_literal_routes_history (db : DBState) (o : EngineOracles)
    (m sid : String) (fields : List (String × Json)) (v c : Json) (ans : String)
    (hhist : get_recent_messages db sid SLIDING_WINDOW_SIZE ≠ [])
    (hp : o.phase1 = .returns (some (.obj fields)))
    (hv : Json.index (.obj fields) "status" = .ok v)
    (hc : Json.index (.obj fields) "content" = .ok c)
    (hans : o.phase2 = .ok ans)
    (hsess : ∃ s ∈ db.sessions, s.id = sid) :
    (v = .str "success" →
      ∃ db', run_text db o m sid = .ok (db', ⟨c, "history", none⟩))
    ∧ (v ≠ .str "success" →
      ∃ db', run_text db o m sid
        = .ok (db', ⟨.str ans, "vectordb", some o.retrieved⟩)) := by
  have hok : (tryAnswerFromHistory o.phase1
      (get_recent_messages db sid SLIDING_WINDOW_SIZE)).result = .ok (.obj fields) := by
    rw [hp, tryAnswer_obj_ok fields _ hhist (hasMember_of_index_ok hv)
      (hasMember_of_index_ok hc)]
  have hany := sessions_any_of_exists hsess
  constructor
  · intro hsucc
    exact ⟨_, run_text_history_path db o m sid (.obj fields) v c hok hv
      ((pyEqStr_iff v "success").mpr hsucc) hc hany⟩
  · intro hne
    have hfalse : v.pyEqStr "success" = false := by
      cases hb : v.pyEqStr "success" with
      | false => rfl
      | true => exact absurd ((pyEqStr_iff v "success").mp hb) hne
    exact ⟨_, run_text_vectordb_path db o m sid (.obj fields) v ans hok hv hfalse hans
      hany⟩

/-- Witness for C9: a one-message history; a `success` status answers
from history and a `partial` status routes to retrieval. -/
theorem claim9_witness :
    (∃ db', run_text
        ⟨[⟨"s", 0, 0⟩], [⟨0, "s", "user", Json.str "hi", none, 0⟩], 1, 1⟩
        ⟨.returns (some (.obj [("status", Json.str "success"), ("content", Json.str "yes")])),
          [], .ok "ans"⟩ "q" "s"
      = .ok (db', ⟨Json.str "yes", "history", none⟩))
    ∧ (∃ db', run_text
        ⟨[⟨"s", 0, 0⟩], [⟨0, "s", "user", Json.str "hi", none, 0⟩], 1, 1⟩
        ⟨.returns (some (.obj [("status", Json.str "partial"), ("content", Json.str "yes")])),
          [], .ok "ans"⟩ "q" "s"
      = .ok (db', ⟨Json.str "ans", "vectordb", some []⟩)) := by
  constructor
  · exact (claim9_success_literal_routes_history
      ⟨[⟨"s", 0, 0⟩], [⟨0, "s", "user", Json.str "hi", none, 0⟩], 1, 1⟩
      ⟨.returns (some (.obj [("status", Json.str "success"), ("content", Json.str "yes")])),
        [], .ok "ans"⟩ "q" "s"
      [("status", Json.str "success"), ("content", Json.str "yes")]
      (Json.str "success") (Json.str "yes") "ans"
      (by intro hcon; exact List.noConfusion hcon) rfl rfl rfl rfl
      ⟨⟨"s", 0, 0⟩, by simp, rfl⟩).1 rfl
  · exact (claim9_success_literal_routes_history
      ⟨[⟨"s", 0, 0⟩], [⟨0, "s", "user", Json.str "hi", none, 0⟩], 1, 1⟩
      ⟨.returns (some (.obj [("status", Json.str "partial"), ("content", Json.str "yes")])),
        [], .ok "ans"⟩ "q" "s"
      [("status", Json.str "partial"), ("content", Json.str "yes")]
      (Json.str "partial") (Json.str "yes") "ans"
      (by intro hcon; exact List.noConfusion hcon) rfl rfl rfl rfl
      ⟨⟨"s", 0, 0⟩, by simp, rfl⟩).2
      (by intro hcon; injection hcon with h; exact absurd h (by decide))

/-! Claim theorems (continued in order of CLAIMS.json above). -/

/-- C3: for every session and every limit N, `get_recent_messages` returns
at most N entries and at most the session's total message count, its rows
are in chronological (oldest-first) order, and the result is exactly a
final suffix of `get_session_history` projected to role and content. -/
theorem claim3_recent_is_chronological_suffix (db : DBState) (sid : String) (N : Nat) :
    (get_recent_messages db sid N).length ≤ N
    ∧ (get_recent_messages db sid N).length ≤ (sessionMessages db sid).length
    ∧ List.Sorted byTime (recentRows db sid N)
    ∧ get_recent_messages db sid N
        <:+ (get_session_history db sid).map (fun e => Msg.mk e.role e.content) := by
  have hlen : (get_recent_messages db sid N).length
      = min N (sessionMessages db sid).length := by
    unfold get_recent_messages
    rw [List.length_map, recentRows_length]
  refine ⟨?_, ?_, ?_, ?_⟩
  · rw [hlen]; exact Nat.min_le_left _ _
  · rw [hlen]; exact Nat.min_le_right _ _
  · exact (List.sorted_insertionSort byTime _).sublist (recentRows_suffix db sid N).sublist
  · unfold get_recent_messages get_session_history
    rw [List.map_map]
    exact (recentRows_suffix db sid N).map _

/-- C5: a phase-1 generation-call failure other than a JSON parse failure
is re-raised as a RuntimeError labelled `LLM error` wrapping the cause,
after exactly one call (no retry), and is distinct from every normally
returned value — in particular from the soft failure status. -/
theorem claim5_phase1_service_error_propagates (e : String) (history : List Msg)
    (h : history ≠ []) :
    tryAnswerFromHistory (.raises e) history = ⟨.error ("LLM error: " ++ e), 1⟩
    ∧ ∀ j : Json, (tryAnswerFromHistory (.raises e) history).result ≠ .ok j := by
  have hne : history.isEmpty = false := by
    cases history with
    | nil => exact absurd rfl h
    | cons a l => rfl
  constructor
  · simp [tryAnswerFromHistory, hne]
  · intro j
    simp [tryAnswerFromHistory, hne]

/-- Witness for C5 at a concrete error and one-message history. -/
theorem claim5_witness :
    tryAnswerFromHistory (.raises "boom") [⟨"user", Json.str "hi"⟩]
      = ⟨.error ("LLM error: " ++ "boom"), 1⟩
    ∧ (tryAnswerFromHistory (.raises "boom") [⟨"user", Json.str "hi"⟩]).result
      ≠ .ok failureResult :=
  ⟨(claim5_phase1_service_error_propagates "boom" [⟨"user", Json.str "hi"⟩] (by simp)).1,
   (claim5_phase1_service_error_propagates "boom" [⟨"user", Json.str "hi"⟩] (by simp)).2
     failureResult⟩

/-- C6: a message appended via a successful `add_message` call with a
non-empty metadata dict is returned by `get_session_history` with
metadata deep-equal to the dict passed in. -/
theorem claim6_metadata_roundtrip (db db' : DBState) (mid : Nat) (sid role : String)
    (content : Json) (m : List (String × Json)) (hm : m ≠ [])
    (hfresh : ∀ r ∈ db.messages, r.id ≠ db.nextId)
    (hadd : add_message db sid role content (some m) = .ok (db', mid)) :
    (∃ e ∈ get_session_history db' sid,
        e.id = mid ∧ e.metadata = some (Json.obj m))
    ∧ ∀ e ∈ get_session_history db' sid,
        e.id = mid → e.metadata = some (Json.obj m) := by
  obtain ⟨hp, _⟩ := add_message_ok hadd
  have hdb' : db' = (insertMessage db sid role content (some m)).1 :=
    congrArg Prod.fst hp
  have hmid : mid = (insertMessage db sid role content (some m)).2 :=
    congrArg Prod.snd hp
  subst hdb'
  subst hmid
  have hser : serializeMetadata (some m) = some (Json.obj m) := by
    simp [serializeMetadata, List.isEmpty_iff, hm]
  constructor
  · exact ⟨newEntry db role content (some m),
      insertMessage_history_mem db sid role content (some m), rfl,
      by simp [newEntry, hser]⟩
  · intro e he hid
    have heq := insertMessage_history_id_unique db sid role content (some m)
      hfresh e he hid
    rw [heq]
    simp [newEntry, hser]

/-- Witness for C6: one session, empty message table, metadata
`{"a": 1}`. -/
theorem claim6_witness :
    (∃ e ∈ get_session_history
        ⟨[⟨"s", 0, 0⟩],
          [⟨0, "s", "user", Json.str "x", some (Json.obj [("a", Json.num 1)]), 0⟩],
          1, 1⟩ "s",
      e.id = 0 ∧ e.metadata = some (Json.obj [("a", Json.num 1)]))
    ∧ ∀ e ∈ get_session_history
        ⟨[⟨"s", 0, 0⟩],
          [⟨0, "s", "user", Json.str "x", some (Json.obj [("a", Json.num 1)]), 0⟩],
          1, 1⟩ "s",
      e.id = 0 → e.metadata = some (Json.obj [("a", Json.num 1)]) :=
  claim6_metadata_roundtrip ⟨[⟨"s", 0, 0⟩], [], 0, 0⟩
    ⟨[⟨"s", 0, 0⟩],
      [⟨0, "s", "user", Json.str "x", some (Json.obj [("a", Json.num 1)]), 0⟩],
      1, 1⟩ 0 "s" "user" (Json.str "x")
    [("a", Json.num 1)] (by simp) (by simp) rfl

/-- C7 counterexample: with one unrelated session on file and the target
session absent, `add_message` raises IntegrityError (the flushed INSERT
violates the NOT NULL foreign key) instead of returning normally, which
refutes the claim that the call merely skips the timestamp touch with no
exception raised. -/
theorem claim7_counterexample :
    add_message ⟨[⟨"other", 0, 0⟩], [], 0, 0⟩ "s" "user" (Json.str "x") none
      = .error "IntegrityError: foreign key constraint fails" := rfl

/-- C7 (amended): when no session row exists for the given id, the
Python-level touch guard itself raises nothing — the lookup finds no row,
so the `updated_at` refresh would be skipped and the sessions table is
left unchanged — but the pending INSERT violates the NOT NULL foreign
key on `messages.session_id` when flushed, so the `add_message` call
raises IntegrityError and persists nothing. -/
theorem claim7_missing_session_raises_integrity (db : DBState) (sid role : String)
    (content : Json) (md : Option (List (String × Json)))
    (h : ∀ s ∈ db.sessions, s.id ≠ sid) :
    add_message db sid role content md
      = .error "IntegrityError: foreign key constraint fails"
    ∧ (insertMessage db sid role content md).1.sessions = db.sessions := by
  constructor
  · unfold add_message
    have hfalse : db.sessions.any (fun s => s.id == sid) = false := by
      rw [List.any_eq_false]
      intro x hx
      simp [h x hx]
    rw [hfalse]
    rfl
  · show db.sessions.map
        (fun s => if s.id == sid then { s with updated_at := db.clock } else s)
      = db.sessions
    have hmap : db.sessions.map
        (fun s => if s.id == sid then { s with updated_at := db.clock } else s)
        = db.sessions.map id :=
      List.map_congr_left (fun s hs => by simp [h s hs])
    rw [hmap, List.map_id]

/-- Witness for C7 (amended) on a store with no sessions at all. -/
theorem claim7_witness :
    add_message ⟨[], [], 0, 0⟩ "s" "user" (Json.str "x") none
      = .error "IntegrityError: foreign key constraint fails"
    ∧ (insertMessage ⟨[], [], 0, 0⟩ "s" "user" (Json.str "x") none).1.sessions = [] :=
  claim7_missing_session_raises_integrity ⟨[], [], 0, 0⟩ "s" "user"
    (Json.str "x") none (by simp)

/-- C8 counterexample: `enb-KE` is a BCP-47 tag whose primary language
subtag is `enb` (Markweeta), so it does not denote English, yet
`step2_translate` returns the text unchanged and never calls the
translation service, because the code only tests the literal prefix
`en`. -/
theorem claim8_counterexample :
    ¬ denotesEnglish "enb-KE"
    ∧ step2_translate (fun s => s ++ " [en]") "hello" "enb-KE" = ("hello", false) :=
  ⟨by decide, rfl⟩

/-- C8 (amended): `step2_translate` short-circuits exactly on the
case-sensitive prefix test `startswith("en")`: every tag beginning with
`en` has the text returned unchanged with no translation call, and every
other tag is sent to `translate_to_english`, whose result is returned. -/
theorem claim8_prefix_short_circuit (translate : String → String)
    (text tag : String) :
    (pyStartsWith tag "en" = true → step2_translate translate text tag = (text, false))
    ∧ (pyStartsWith tag "en" = false
        → step2_translate translate text tag = (translate text, true)) := by
  constructor <;> intro h <;> simp [step2_translate, h]

/-- Witness for C8 on `en-US` (skips translation) and `hi-IN`
(translates). -/
theorem claim8_witness :
    step2_translate (fun s => s ++ " [en]") "namaste" "en-US" = ("namaste", false)
    ∧ step2_translate (fun s => s ++ " [en]") "namaste" "hi-IN"
      = ("namaste" ++ " [en]", true) :=
  ⟨(claim8_prefix_short_circuit (fun s => s ++ " [en]") "namaste" "en-US").1 (by decide),
   (claim8_prefix_short_circuit (fun s => s ++ " [en]") "namaste" "hi-IN").2 (by decide)⟩

/-- C10: a successful append with metadata equal to the empty dict stores
NULL in the metadata column (Python truthiness treats `{}` like `None`),
so `get_session_history` returns metadata `None` for that message — the
round-trip does not hold at this boundary value. -/
theorem claim10_empty_metadata_stored_null (db db' : DBState) (mid : Nat)
    (sid role : String) (content : Json)
    (hfresh : ∀ r ∈ db.messages, r.id ≠ db.nextId)
    (hadd : add_message db sid role content (some []) = .ok (db', mid)) :
    db'.messages = db.messages ++ [⟨db.nextId, sid, role, content, none, db.clock⟩]
    ∧ (∃ e ∈ get_session_history db' sid, e.id = mid ∧ e.metadata = none)
    ∧ ∀ e ∈ get_session_history db' sid, e.id = mid → e.metadata = none := by
  obtain ⟨hp, _⟩ := add_message_ok hadd
  have hdb' : db' = (insertMessage db sid role content (some [])).1 :=
    congrArg Prod.fst hp
  have hmid : mid = (insertMessage db sid role content (some [])).2 :=
    congrArg Prod.snd hp
  subst hdb'
  subst hmid
  refine ⟨rfl, ?_, ?_⟩
  · exact ⟨newEntry db role content (some []),
      insertMessage_history_mem db sid role content (some []), rfl, rfl⟩
  · intro e he hid
    have heq := insertMessage_history_id_unique db sid role content (some [])
      hfresh e he hid
    rw [heq]
    rfl

/-- Witness for C10: one session, empty message table, metadata `{}`. -/
theorem claim10_witness :
    (DBState.mk [⟨"s", 0, 0⟩] [⟨0, "s", "user", Json.str "x", none, 0⟩] 1 1).messages
      = (DBState.mk [⟨"s", 0, 0⟩] [] 0 0).messages
        ++ [⟨0, "s", "user", Json.str "x", none, 0⟩]
    ∧ (∃ e ∈ get_session_history
        ⟨[⟨"s", 0, 0⟩], [⟨0, "s", "user", Json.str "x", none, 0⟩], 1, 1⟩ "s",
      e.id = 0 ∧ e.metadata = none)
    ∧ ∀ e ∈ get_session_history
        ⟨[⟨"s", 0, 0⟩], [⟨0, "s", "user", Json.str "x", none, 0⟩], 1, 1⟩ "s",
      e.id = 0 → e.metadata = none :=
  claim10_empty_metadata_stored_null ⟨[⟨"s", 0, 0⟩], [], 0, 0⟩
    ⟨[⟨"s", 0, 0⟩], [⟨0, "s", "user", Json.str "x", none, 0⟩], 1, 1⟩ 0
    "s" "user" (Json.str "x") (by simp) rfl

end ChatBot
